import Mathlib

/-!
Verification of the e-com-chatbot-frontend storefront logic: shallow embedding of
the chat-intent resolver, cart ledger, order processor, registration gate and
bold-markup renderer, with theorems checking the specification's claims.
JS strings are modelled by Lean `String` (a list of characters); JS
`String.prototype.includes`, `toLowerCase`, `trim`, `startsWith`, `endsWith`,
`slice` are modelled by pure functions on the character list.
-/

namespace Nexa

/-- `sub` occurs contiguously in `s` (scan every suffix for a prefix match). -/
def infixAux (sub : List Char) : List Char → Bool
  | [] => sub.isEmpty
  | c :: t => sub.isPrefixOf (c :: t) || infixAux sub t

/-- JS `s.includes(sub)`: the characters of `sub` occur contiguously in `s`. -/
def containsStr (s sub : String) : Bool := infixAux sub.data s.data

/-- JS `s.toLowerCase()` restricted to ASCII (all keyword matching in the source
uses ASCII strings). -/
def toLowerStr (s : String) : String := ⟨s.data.map Char.toLower⟩

/-- JS `s.trim()`: strip leading and trailing whitespace. -/
def trimStr (s : String) : String :=
  ⟨((s.data.dropWhile Char.isWhitespace).reverse.dropWhile Char.isWhitespace).reverse⟩

/-- JS `s.startsWith(pre)`. -/
def startsWithStr (s pre : String) : Bool := pre.data.isPrefixOf s.data

/-- JS `s.endsWith(suf)`. -/
def endsWithStr (s suf : String) : Bool := suf.data.reverse.isPrefixOf s.data.reverse

/-- JS `s.slice(2, -2)`: drop two characters at each end (clamped). -/
def sliceTwoTwo (s : String) : String := ⟨((s.data.drop 2).reverse.drop 2).reverse⟩

/-- Round a rational to the nearest integer, ties up (`⌊q + 1/2⌋`, the §9.2 of
ECMA-262 choice of "the larger n" on ties). -/
def jsRound (q : ℚ) : ℤ := ⌊q + 1 / 2⌋

/-- JS `Number.prototype.toFixed(2)` followed by `parseFloat`: round to a whole
number of cents, as a rational. -/
def toFixed2 (q : ℚ) : ℚ := (jsRound (q * 100) : ℚ) / 100

/-- Decimal string with two fraction digits (JS `total.toFixed(2)` rendered). -/
def toFixed2Str (q : ℚ) : String :=
  let cents : ℤ := jsRound (q * 100)
  let a := cents.natAbs
  (if cents < 0 then "-" else "") ++ toString (a / 100) ++ "." ++
    (if a % 100 < 10 then "0" else "") ++ toString (a % 100)

-- --- DATA MODEL (TYPES & INTERFACES of src/src/App.tsx and the variants) ---

/-- `ChatMessage.sender` enum. -/
inductive Sender where
  | user
  | bot
deriving DecidableEq, Repr

/-- `Product` (src/src/App.tsx lines 10-19; identical in part_002 and part_005). -/
structure Product where
  id : Nat
  title : String
  price : ℚ
  category : String
  stock : Nat
  active : Bool
  description : String
  image : String
deriving DecidableEq, Repr

/-- `UserData` (src/src/App.tsx lines 21-24). -/
structure UserData where
  id : String
  name : String
deriving DecidableEq, Repr

/-- `Order` (src/src/App.tsx lines 26-34).  The source stores `date` and
`deliveryDate` as formatted date strings; they are modelled here by the
underlying epoch milliseconds the source formats (`Date.now()` and
`Date.now() + 5*24*60*60*1000`). -/
structure Order where
  id : String
  items : List Product
  total : ℚ
  customer : UserData
  status : String
  date : Nat
  deliveryDate : Nat
deriving DecidableEq, Repr

/-- `Faq` (src/src/App.tsx lines 42-45). -/
structure Faq where
  question : String
  answer : String
deriving DecidableEq, Repr

/-- `AppSettings` (src/src/App.tsx lines 47-54). -/
structure AppSettings where
  storeName : String
  supportEmail : String
  botName : String
  botActive : Bool
  welcomeMessage : String
  faqs : List Faq
deriving DecidableEq, Repr

/-- `FALLBACK_PRODUCTS` (src/src/App.tsx lines 58-65; the same list appears in
part_002 lines 37-44). -/
def FALLBACK_PRODUCTS : List Product := [
  { id := 1, title := "Urban Explorer Backpack 2025", price := 11995 / 100,
    category := "men\x27s clothing", stock := 50, active := true,
    description := "Updated 2025 model for everyday use.",
    image := "https://images.unsplash.com/photo-1553062407-98eeb64c6a62?auto=format&fit=crop&w=500&q=60" },
  { id := 2, title := "Slim Fit Cotton T-Shirt", price := 2450 / 100,
    category := "men\x27s clothing", stock := 100, active := true,
    description := "Light weight & soft fabric.",
    image := "https://images.unsplash.com/photo-1521572163474-6864f9cf17ab?auto=format&fit=crop&w=500&q=60" },
  { id := 3, title := "Winter Explorer Jacket \x2725", price := 6999 / 100,
    category := "men\x27s clothing", stock := 30, active := true,
    description := "Great for Winter.",
    image := "https://images.unsplash.com/photo-1591047139829-d91aecb6caea?auto=format&fit=crop&w=500&q=60" },
  { id := 4, title := "Gold Plated Ring", price := 175,
    category := "jewelery", stock := 15, active := true,
    description := "Satisfaction Guaranteed.",
    image := "https://images.unsplash.com/photo-1605100804763-247f67b3557e?auto=format&fit=crop&w=500&q=60" },
  { id := 5, title := "Smart Wireless Headset Gen 2", price := 9999 / 100,
    category := "electronics", stock := 25, active := true,
    description := "Improved noise cancelling.",
    image := "https://images.unsplash.com/photo-1505740420928-5e560c06d30e?auto=format&fit=crop&w=500&q=60" },
  { id := 6, title := "Classic Leather Watch", price := 12550 / 100,
    category := "accessories", stock := 10, active := true,
    description := "Timeless elegance.",
    image := "https://images.unsplash.com/photo-1524592094714-0f0654e20314?auto=format&fit=crop&w=500&q=60" }
]

/-- `INITIAL_SETTINGS` (src/src/App.tsx lines 67-77). -/
def INITIAL_SETTINGS : AppSettings :=
  { storeName := "Nexa AI Store", supportEmail := "support@nexa.com",
    botName := "NexaBot", botActive := true,
    welcomeMessage := "Hello! I\x27m NexaBot. You can ask me to \x27Add items to cart\x27, \x27Check stock\x27, or \x27Track order\x27. How can I help?",
    faqs := [⟨"shipping", "We ship within 24 hours."⟩,
             ⟨"return", "Returns accepted within 30 days."⟩] }

/-- `p.category.toLowerCase().split("\x27")[0]`: the first apostrophe-separated
segment of the lowercased category (src/src/App.tsx lines 511, 523). -/
def categoryToken (category : String) : String :=
  ⟨(toLowerStr category).data.takeWhile (fun c => c ≠ Char.ofNat 39)⟩

/-- Cart subtotal `cart.reduce((acc, item) => acc + item.price, 0)`
(src/src/App.tsx line 291 in `CartView`, line 435 in `processOrder`). -/
def cartTotal (cart : List Product) : ℚ := cart.foldl (fun acc item => acc + item.price) 0

/-- `Math.floor(10000 + Math.random() * 90000).toString()` with the
`Math.random()` draw `rand` passed in explicitly (src/src/App.tsx line 437). -/
def randomOrderId (rand : ℚ) : String := toString (⌊(10000 : ℚ) + rand * 90000⌋)

example : containsStr "clear my cart and place order" "clear" = true := by decide

example : toLowerStr "Clear My Cart" = "clear my cart" := by decide

example : containsStr (toLowerStr "Clear My Cart") "cart" = true := by decide

example : categoryToken "Men\x27s Clothing" = "men" := by decide

example : toFixed2 30 = 30 := by norm_num [toFixed2, jsRound]

example : trimStr " 9876543210 " = "9876543210" := by decide

-- --- V1: the "Nexa AI Store" variant, src/src/App.tsx ---

namespace V1

/-- `ChatMessage` (src/src/App.tsx lines 36-40); timestamps as epoch ms. -/
structure ChatMessage where
  sender : Sender
  text : String
  timestamp : Nat
deriving DecidableEq, Repr

/-- The component state of `App` (src/src/App.tsx lines 389-401) that the chat
and order logic reads and writes. -/
structure AppState where
  products : List Product
  cart : List Product
  orders : List Order
  chatLog : List ChatMessage
  isBackendOffline : Bool
deriving DecidableEq, Repr

/-- The parsed JSON reply of `POST /chat`; `apiService.sendChat` yields `none`
on a network error or non-OK response (src/src/App.tsx lines 103-119). -/
structure BackendResponse where
  text : String
  rtype : Option String
deriving DecidableEq, Repr

/-- `setChatLog(prev => [...prev, { sender: 'bot', text, timestamp }])`. -/
def appendBot (st : AppState) (text : String) (now : Nat) : AppState :=
  { st with chatLog := st.chatLog ++ [⟨Sender.bot, text, now⟩] }

/-- `processOrder` (src/src/App.tsx lines 433-448): `none` on an empty cart,
otherwise the new order together with the updated state (order prepended to
history, cart emptied).  `now` is `Date.now()` in ms and `rand` the
`Math.random()` draw. -/
def processOrder (st : AppState) (now : Nat) (rand : ℚ) (userId : String) :
    Option Order × AppState :=
  if st.cart.length == 0 then (none, st)
  else
    let newOrder : Order :=
      { id := randomOrderId rand
        items := st.cart
        total := toFixed2 (cartTotal st.cart)
        customer := ⟨userId, "Web User"⟩
        status := "Pending"
        date := now
        deliveryDate := now + 5 * 24 * 60 * 60 * 1000 }
    (some newOrder, { st with orders := newOrder :: st.orders, cart := [] })

/-- Rule 1 condition (src/src/App.tsx line 465):
`(lowerMsg.includes("clear") || lowerMsg.includes("empty")) && lowerMsg.includes("cart")`. -/
def clearCond (l : String) : Bool :=
  (containsStr l "clear" || containsStr l "empty") && containsStr l "cart"

/-- Rule 2 condition (src/src/App.tsx line 472):
`lowerMsg.includes("place order") || lowerMsg.includes("checkout")`. -/
def orderCond (l : String) : Bool :=
  containsStr l "place order" || containsStr l "checkout"

/-- Rule 3 condition (src/src/App.tsx lines 485-491): a cart-read trigger with
a negative guard against the action verbs. -/
def showCond (l : String) : Bool :=
  (containsStr l "show cart" || containsStr l "my cart" || containsStr l "in cart")
    && !containsStr l "add" && !containsStr l "buy"
    && !containsStr l "place" && !containsStr l "checkout"

/-- The product lookup shared by the backend cart-update hook and the offline
add-to-cart rule (src/src/App.tsx lines 511, 523): first catalog product whose
lowercased title, or whose category token, occurs in the message. -/
def findProduct (products : List Product) (l : String) : Option Product :=
  products.find? (fun p => containsStr l (toLowerStr p.title) || containsStr l (categoryToken p.category))

/-- The offline fallback block of `handleChat` (src/src/App.tsx lines 516-543),
entered when the backend reply is missing or has no text: sets the offline
flag, then runs the add-to-cart rule, the smart handlers and the FAQ/generic
fallback, finally appending the bot reply. -/
def offlineFallback (st : AppState) (settings : AppSettings) (l : String) (now : Nat) :
    AppState :=
  let st := { st with isBackendOffline := true }
  if containsStr l "add to cart" || containsStr l "buy" then
    match findProduct st.products l with
    | some product =>
        appendBot { st with cart := st.cart ++ [product] }
          ("I\x27ve added \x27" ++ product.title ++ "\x27 to your cart. Total items: " ++
            toString (st.cart.length + 1) ++ ".") now
    | none =>
        appendBot st "I couldn\x27t find that product directly. Try checking our catalog above!" now
  else if containsStr l "best selling" then
    appendBot st "Our best-selling item is the \x27Urban Explorer Backpack\x27. Would you like to add it to your cart?" now
  else if containsStr l "contact" || containsStr l "support" then
    appendBot st ("You can reach our human support team at " ++ settings.supportEmail ++ ".") now
  else
    match settings.faqs.find? (fun f => containsStr l f.question) with
    | some faqMatch => appendBot st faqMatch.answer now
    | none => appendBot st "I\x27m running in offline mode. I can help you browse products and manage your cart!" now

/-- `handleChat` (src/src/App.tsx lines 450-547).  The user message is appended
first; the `handledLocally` flag plus if/else-if chain of the source is the
first-match dispatch written out directly; every path ends by appending the
bot reply.  `backend` is the (already resolved) result of
`apiService.sendChat`. -/
def handleChat (st0 : AppState) (settings : AppSettings) (message : String)
    (backend : Option BackendResponse) (now : Nat) (rand : ℚ) (userId : String) :
    AppState :=
  let st := { st0 with chatLog := st0.chatLog ++ [⟨Sender.user, message, now⟩] }
  let l := toLowerStr message
  if clearCond l then
    appendBot { st with cart := [] } "I\x27ve emptied your cart." now
  else if orderCond l then
    if st.cart.length == 0 then
      appendBot st "Your cart is empty. Add some cool gear first!" now
    else
      match processOrder st now rand userId with
      | (some order, st2) =>
          appendBot st2 ("Order #" ++ order.id ++ " placed successfully! It will arrive by " ++
            toString order.deliveryDate ++ ".") now
      | (none, st2) => appendBot st2 "Error placing order." now
  else if showCond l then
    if st.cart.length == 0 then
      appendBot st "Your cart is currently empty." now
    else
      appendBot st ("You have " ++ toString st.cart.length ++ " items in your cart: " ++
        String.intercalate ", " (st.cart.map Product.title) ++ ". Total: $" ++
        toFixed2Str (cartTotal st.cart) ++ ". Say \x27Place Order\x27 to checkout.") now
  else
    match backend with
    | some r =>
      if r.text != "" then
        let st2 :=
          if r.rtype == some "cart-update" || containsStr l "add to cart" then
            match findProduct st.products l with
            | some product => { st with cart := st.cart ++ [product] }
            | none => st
          else st
        appendBot st2 r.text now
      else offlineFallback st settings l now
    | none => offlineFallback st settings l now

end V1

-- --- V2: the image/gallery variant, src/unnamed/part_002 ---

namespace V2

/-- `ChatMessage` (part_002 lines 24-31): optional user-uploaded image and
optional bot gallery (absence modelled by `none` / `[]`). -/
structure ChatMessage where
  sender : Sender
  text : String
  timestamp : Nat
  userImage : Option String
  images : List String
deriving DecidableEq, Repr

/-- Component state of the part_002 `App` (lines 330-339). -/
structure AppState where
  products : List Product
  cart : List Product
  orders : List Order
  chatLog : List ChatMessage
  isBackendOffline : Bool
deriving DecidableEq, Repr

/-- Parsed `POST /chat` reply of part_002 (`type`-tagged, optional `data`
payload); `none` when the fetch failed (part_002 lines 68-83). -/
structure BackendResponse where
  text : String
  rtype : Option String
  dataImages : Option (List String)
  dataImage : Option String
deriving DecidableEq, Repr

/-- Append a plain bot message (no user image, no gallery). -/
def appendBot (st : AppState) (text : String) (now : Nat) : AppState :=
  { st with chatLog := st.chatLog ++ [⟨Sender.bot, text, now, none, []⟩] }

/-- `processOrder` (part_002 lines 360-375), this variant's own copy of the
order processor: identical structure to the src/src/App.tsx one. -/
def processOrder (st : AppState) (now : Nat) (rand : ℚ) (userId : String) :
    Option Order × AppState :=
  if st.cart.length == 0 then (none, st)
  else
    let newOrder : Order :=
      { id := randomOrderId rand
        items := st.cart
        total := toFixed2 (cartTotal st.cart)
        customer := ⟨userId, "Web User"⟩
        status := "Pending"
        date := now
        deliveryDate := now + 5 * 24 * 60 * 60 * 1000 }
    (some newOrder, { st with orders := newOrder :: st.orders, cart := [] })

/-- Product lookup of part_002 (lines 413, 422): lowercased title only. -/
def findProduct (products : List Product) (l : String) : Option Product :=
  products.find? (fun p => containsStr l (toLowerStr p.title))

/-- The offline branch of part_002's `handleChat` (lines 418-427): set the
offline flag, then either the `"add"` rule (title match, with a recoverable
not-found reply) or the generic offline reply. -/
def offlinePart (st : AppState) (l : String) (now : Nat) : AppState :=
  let st := { st with isBackendOffline := true }
  if containsStr l "add" then
    match findProduct st.products l with
    | some product =>
        appendBot { st with cart := st.cart ++ [product] }
          ("Added **" ++ product.title ++ "** to cart.") now
    | none => appendBot st "Item not found." now
  else appendBot st "Offline mode active." now

/-- `handleChat` (part_002 lines 377-431): the same first-match local rules
(this variant's show-cart guard only excludes `"add"`), then the backend path
with gallery/image handling, else the offline fallback. -/
def handleChat (st0 : AppState) (message : String) (image : Option String)
    (backend : Option BackendResponse) (now : Nat) (rand : ℚ) (userId : String) :
    AppState :=
  let st := { st0 with chatLog := st0.chatLog ++ [⟨Sender.user, message, now, image, []⟩] }
  let l := toLowerStr message
  if (containsStr l "clear" || containsStr l "empty") && containsStr l "cart" then
    appendBot { st with cart := [] } "I\x27ve emptied your cart." now
  else if containsStr l "place order" || containsStr l "checkout" then
    if st.cart.length == 0 then appendBot st "Your cart is empty." now
    else
      match processOrder st now rand userId with
      | (some order, st2) => appendBot st2 ("Order **#" ++ order.id ++ "** placed!") now
      | (none, st2) => appendBot st2 "Error placing order." now
  else if (containsStr l "show cart" || containsStr l "my cart") && !containsStr l "add" then
    if st.cart.length == 0 then appendBot st "Your cart is empty." now
    else
      appendBot st ("Cart: " ++ String.intercalate ", " (st.cart.map Product.title) ++
        ". Total: $" ++ toFixed2Str (cartTotal st.cart) ++ ".") now
  else
    match backend with
    | some r =>
      if r.text != "" then
        let images : List String :=
          if r.rtype == some "gallery" then (r.dataImages).getD []
          else if r.rtype == some "image" then
            (match r.dataImage with | some i => [i] | none => [])
          else []
        let st2 :=
          if r.rtype == some "cart-update" || containsStr l "add to cart" then
            match findProduct st.products l with
            | some product => { st with cart := st.cart ++ [product] }
            | none => st
          else st
        { st2 with chatLog := st2.chatLog ++ [⟨Sender.bot, r.text, now, none, images⟩] }
      else offlinePart st l now
    | none => offlinePart st l now

end V2

-- --- Bold-markup renderer: `parseMessage` (part_002 lines 137-145, identical
-- in part_005 lines 157-165) ---

/-- A rendered span: plain text or a bold `<span>`. -/
inductive Span where
  | plain (s : String)
  | bold (s : String)
deriving DecidableEq, Repr

/-- The lazy close of `/\*\*.*?\*\*/`: scan for the first `**`; `.` does not
match a line terminator, so hitting one (or the end) means no match.  Returns
the content before the close and the rest after it. -/
def findClose : List Char → Option (List Char × List Char)
  | [] => none
  | '*' :: '*' :: rest => some ([], rest)
  | c :: rest =>
    if c = '\n' ∨ c = '\r' then none
    else (findClose rest).map (fun p => (c :: p.1, p.2))

/-- A whole-match of `/\*\*.*?\*\*/` starting at the head of the list. -/
def matchAt : List Char → Option (List Char × List Char)
  | '*' :: '*' :: rest =>
    (findClose rest).map (fun p => ('*' :: '*' :: p.1 ++ ['*', '*'], p.2))
  | _ => none

/-- One step of `text.split(/(\*\*.*?\*\*)/g)`: emit the pending chunk and the
leftmost match, or advance one character.  `fuel` bounds the recursion by the
input length (every step consumes at least one character). -/
def splitAux : Nat → List Char → List Char → List String
  | 0, cs, chunk => [⟨chunk.reverse ++ cs⟩]
  | fuel + 1, cs, chunk =>
    match matchAt cs with
    | some (m, rest) => (⟨chunk.reverse⟩ : String) :: (⟨m⟩ : String) :: splitAux fuel rest []
    | none =>
      match cs with
      | [] => [⟨chunk.reverse⟩]
      | c :: t => splitAux fuel t (c :: chunk)

/-- JS `text.split(/(\*\*.*?\*\*)/g)`: the unmatched chunks interleaved with
the captured `**...**` delimiters. -/
def jsSplitBold (s : String) : List String := splitAux s.data.length s.data []

/-- `parseMessage` (part_002 lines 137-145 and part_005 lines 157-165): split
on the `**...**` pattern, render each part that both starts and ends with `**`
as a bold span with the markers sliced off, everything else as plain text. -/
def parseMessage (text : String) : List Span :=
  (jsSplitBold text).map (fun part =>
    if startsWithStr part "**" && endsWithStr part "**" then Span.bold (sliceTwoTwo part)
    else Span.plain part)

example : jsSplitBold "Hello **World**!" = ["Hello ", "**World**", "!"] := by decide

example : jsSplitBold "**Oops" = ["**Oops"] := by decide

example : jsSplitBold "a**b**" = ["a", "**b**", ""] := by decide

-- --- V5: the registration-gate variant, src/unnamed/part_005 ---

namespace V5

/-- `ChatMessage` of part_005 (lines 18-25), attachments dropped to the fields
the registration flow touches. -/
structure ChatMessage where
  sender : Sender
  text : String
  timestamp : Nat
deriving DecidableEq, Repr

/-- `UserRegistration` (part_005 lines 27-31). -/
structure UserRegistration where
  name : String
  mobile : String
  registered : Bool
deriving DecidableEq, Repr

/-- Component state of the part_005 `App` (lines 331-340). -/
structure AppState where
  products : List Product
  cart : List Product
  chatLog : List ChatMessage
  userReg : UserRegistration
  currentLanguage : String
  isBackendOffline : Bool
deriving DecidableEq, Repr

/-- The welcome text emitted on registration (part_005 line 361). -/
def welcomeText (name : String) : String :=
  "Welcome **" ++ name ++ "**! 🎉 How can I help you today? You can ask about products, track orders, or get recommendations!"

/-- `handleRegister` (part_005 lines 356-363): store the registration and
append the echoed user line and the bot welcome. -/
def handleRegister (st : AppState) (name mobile : String) (now : Nat) : AppState :=
  { st with
    userReg := ⟨name, mobile, true⟩
    chatLog := st.chatLog ++
      [⟨Sender.user, name ++ " | " ++ mobile, now⟩,
       ⟨Sender.bot, welcomeText name, now⟩] }

/-- The mobile pattern `/^\d{10}$/` (part_005 line 136): exactly ten decimal
digits. -/
def mobileRegex (s : String) : Bool := s.data.length == 10 && s.data.all Char.isDigit

/-- `regStep` of the chat widget (part_005 line 118). -/
inductive RegStep where
  | name
  | mobile
  | done
deriving DecidableEq, Repr

/-- The widget-local state `handleSend` reads and writes (part_005
lines 117-119). -/
structure WidgetState where
  input : String
  regStep : RegStep
  tempName : String
deriving DecidableEq, Repr

/-- What a send-button press does besides updating widget state: nothing
(including the rejected-mobile `alert`), call `onRegister`, or call
`onSendMessage`. -/
inductive SendAction where
  | nothing
  | register (name mobile : String)
  | send (message : String)
deriving DecidableEq, Repr

/-- `handleSend` (part_005 lines 127-149): empty input is ignored; while
unregistered the name step captures the name and the mobile step validates the
trimmed input against `mobileRegex` (rejection only raises an alert);
only once registered does it call `onSendMessage`. -/
def handleSend (registered : Bool) (ws : WidgetState) : WidgetState × SendAction :=
  if trimStr ws.input == "" then (ws, SendAction.nothing)
  else if !registered then
    match ws.regStep with
    | RegStep.name =>
        ({ ws with tempName := ws.input, regStep := RegStep.mobile, input := "" },
         SendAction.nothing)
    | RegStep.mobile =>
        if mobileRegex (trimStr ws.input) then
          ({ ws with regStep := RegStep.done, input := "" },
           SendAction.register ws.tempName (trimStr ws.input))
        else (ws, SendAction.nothing)
    | RegStep.done => (ws, SendAction.nothing)
  else ({ ws with input := "" }, SendAction.send ws.input)

/-- `true` exactly on a `send` action, i.e. when `onSendMessage` is invoked. -/
def isSendMessage : SendAction → Bool
  | SendAction.send _ => true
  | _ => false

/-- `handleChat` (part_005 lines 365-388): no local rules in this variant;
append the user message, then either the backend reply or the fixed
trouble-connecting reply. -/
def handleChat (st0 : AppState) (message : String)
    (backendText : Option String) (now : Nat) : AppState :=
  let st : AppState :=
    { st0 with chatLog := st0.chatLog ++ [ChatMessage.mk Sender.user message now] }
  match backendText with
  | some t =>
    if t != "" then
      { st with chatLog := st.chatLog ++ [ChatMessage.mk Sender.bot t now] }
    else
      { st with chatLog := st.chatLog ++
          [ChatMessage.mk Sender.bot "I\x27m having trouble connecting. Please try again!" now] }
  | none =>
    { st with chatLog := st.chatLog ++
        [ChatMessage.mk Sender.bot "I\x27m having trouble connecting. Please try again!" now] }

end V5

-- --- SS: the "StyleStore" variant, src/unnamed/part_001 ---

namespace SS

/-- `Product` of part_001 (lines 15-23), `rating` flattened to its fields. -/
structure Product where
  id : Nat
  title : String
  price : ℚ
  category : String
  description : String
  image : String
  ratingRate : ℚ
  ratingCount : Nat
deriving DecidableEq, Repr

/-- `CartItem extends Product { quantity: number }` (part_001 line 25). -/
structure CartItem extends Product where
  quantity : Nat
deriving DecidableEq, Repr

/-- `addToCart` (part_001 lines 91-98): increment the quantity of an existing
entry, else append the product with quantity 1. -/
def addToCart (cart : List CartItem) (product : Product) : List CartItem :=
  if cart.any (fun p => p.id == product.id) then
    cart.map (fun p => if p.id == product.id then { p with quantity := p.quantity + 1 } else p)
  else cart ++ [{ product with quantity := 1 }]

/-- The order total of `placeOrder` (part_001 line 101):
`cart.reduce((sum, i) => sum + (i.price * i.quantity), 0)`. -/
def orderTotal (cart : List CartItem) : ℚ :=
  cart.foldl (fun sum i => sum + i.price * (i.quantity : ℚ)) 0

end SS

/-- Modelled from the spec (§4.2 `total()`): no function in the repository
reads a discount — no variant's `Product` carries a `discount` field — so the
spec's entry shape `price, quantity, discount` is modelled here as its own
record, to be compared with the totals the source computes. -/
structure SpecCartEntry where
  price : ℚ
  qty : Nat
  discount : ℚ
deriving DecidableEq, Repr

/-- Modelled from the spec (§4.2, §8): `sum(price_i * qty_i * (1 - discount_i/100))`. -/
def specTotal (entries : List SpecCartEntry) : ℚ :=
  (entries.map (fun e => e.price * (e.qty : ℚ) * (1 - e.discount / 100))).sum

-- --- Helper lemmas ---

lemma foldl_add_map {α : Type} (f : α → ℚ) (l : List α) :
    ∀ a : ℚ, l.foldl (fun s i => s + f i) a = a + (l.map f).sum := by
  induction l with
  | nil => intro a; simp
  | cons x t ih => intro a; simp [ih, add_assoc]

lemma cartTotal_eq_sum (cart : List Product) :
    cartTotal cart = (cart.map Product.price).sum := by
  simpa using foldl_add_map Product.price cart 0

lemma isPrefixOf_append_self (l t : List Char) : l.isPrefixOf (l ++ t) = true := by
  induction l with
  | nil => simp [List.isPrefixOf]
  | cons c cs ih => simp [List.isPrefixOf, ih]

lemma infixAux_here (sub suf : List Char) : infixAux sub (sub ++ suf) = true := by
  cases sub with
  | nil => cases suf <;> simp [infixAux, List.isPrefixOf]
  | cons c cs => simp [infixAux, isPrefixOf_append_self]

lemma infixAux_cons (sub : List Char) (c : Char) (t : List Char)
    (h : infixAux sub t = true) : infixAux sub (c :: t) = true := by
  simp [infixAux, h]

lemma infixAux_append_left (sub pre rest : List Char)
    (h : infixAux sub rest = true) : infixAux sub (pre ++ rest) = true := by
  induction pre with
  | nil => simpa using h
  | cons c t ih => simpa using infixAux_cons sub c (t ++ rest) ih

-- Sample products for the §8 order-creation test case: cart
-- `[{title:"A", price:10}, {title:"B", price:20}]`.

def prodA : Product :=
  { id := 1, title := "A", price := 10, category := "", stock := 1, active := true,
    description := "", image := "" }

def prodB : Product :=
  { id := 2, title := "B", price := 20, category := "", stock := 1, active := true,
    description := "", image := "" }

-- --- CLAIMS ---

/-- C1: the Offline Intent Resolver evaluates its rules first-match-wins: any
message whose lowercased text contains ("clear" or "empty") together with
"cart" fires only the clear-cart rule — the cart becomes empty, the reply
confirms emptying, and the resulting state shows that no later rule
(place-order, show-cart, add-to-cart, fallback) executed: orders, products and
the offline flag are untouched. -/
theorem clear_rule_fires_first (st : V1.AppState) (settings : AppSettings)
    (msg : String) (backend : Option V1.BackendResponse) (now : Nat) (rand : ℚ)
    (userId : String)
    (h1 : (containsStr (toLowerStr msg) "clear" || containsStr (toLowerStr msg) "empty") = true)
    (h2 : containsStr (toLowerStr msg) "cart" = true) :
    V1.handleChat st settings msg backend now rand userId =
      { st with
        cart := [],
        chatLog := st.chatLog ++
          [⟨Sender.user, msg, now⟩, ⟨Sender.bot, "I\x27ve emptied your cart.", now⟩] } := by
  simp [V1.handleChat, V1.clearCond, V1.appendBot, h1, h2]

/-- C1 witness: `"clear my cart and place order"` clears a non-empty cart and
creates no order. -/
theorem clear_rule_fires_first_witness :
    ((containsStr (toLowerStr "clear my cart and place order") "clear" ||
        containsStr (toLowerStr "clear my cart and place order") "empty") = true) ∧
    (containsStr (toLowerStr "clear my cart and place order") "cart" = true) ∧
    V1.handleChat ⟨FALLBACK_PRODUCTS, [prodA], [], [], false⟩ INITIAL_SETTINGS
        "clear my cart and place order" none 0 0 "user_web_demo" =
      ⟨FALLBACK_PRODUCTS, [], [],
        [⟨Sender.user, "clear my cart and place order", 0⟩,
         ⟨Sender.bot, "I\x27ve emptied your cart.", 0⟩], false⟩ :=
  ⟨by decide, by decide, by
    rw [clear_rule_fires_first ⟨FALLBACK_PRODUCTS, [prodA], [], [], false⟩ INITIAL_SETTINGS
      "clear my cart and place order" none 0 0 "user_web_demo" (by decide) (by decide)]
    rfl⟩

/-- C2: a message carrying a cart-read trigger ("show cart" / "my cart" /
"in cart") together with one of the action verbs "add", "buy", "place",
"checkout" never satisfies the show-cart rule's guarded condition of
src/src/App.tsx; and concretely, part_002's resolver sends
`"add this to my cart"` past the show-cart rule into the add-to-cart handling
(its recoverable not-found reply), with the cart untouched. -/
theorem show_cart_negative_guard :
    (∀ l : String,
      (containsStr l "show cart" || containsStr l "my cart" || containsStr l "in cart") = true →
      (containsStr l "add" || containsStr l "buy" ||
        containsStr l "place" || containsStr l "checkout") = true →
      V1.showCond l = false) ∧
    V2.handleChat ⟨FALLBACK_PRODUCTS, [], [], [], false⟩ "add this to my cart"
        none none 0 0 "user_web_demo" =
      ⟨FALLBACK_PRODUCTS, [], [],
        [⟨Sender.user, "add this to my cart", 0, none, []⟩,
         ⟨Sender.bot, "Item not found.", 0, none, []⟩], true⟩ := by
  constructor
  · intro l _ h2
    unfold V1.showCond
    have h2' : containsStr l "add" = true ∨ containsStr l "buy" = true ∨
        containsStr l "place" = true ∨ containsStr l "checkout" = true := by
      simpa [or_assoc] using h2
    rcases h2' with h | h | h | h <;> simp [h]
  · rfl

/-- C2 witness: `"add this to my cart"` satisfies the cart-read trigger and the
action-verb disjunction, so the show-cart condition is false on it. -/
theorem show_cart_negative_guard_witness :
    ((containsStr "add this to my cart" "show cart" ||
        containsStr "add this to my cart" "my cart" ||
        containsStr "add this to my cart" "in cart") = true) ∧
    ((containsStr "add this to my cart" "add" || containsStr "add this to my cart" "buy" ||
        containsStr "add this to my cart" "place" ||
        containsStr "add this to my cart" "checkout") = true) ∧
    V1.showCond "add this to my cart" = false :=
  ⟨by decide, by decide,
    show_cart_negative_guard.1 "add this to my cart" (by decide) (by decide)⟩

/-- C3: on every non-empty cart `processOrder` yields an order whose total is
the sum of the cart entries' prices rounded to two decimals, whose delivery
date is the creation date plus five days (in ms), which is prepended to the
order history, and the cart is empty afterwards. -/
theorem order_processor_submit (st : V1.AppState) (now : Nat) (rand : ℚ)
    (userId : String) (h : st.cart ≠ []) :
    ∃ o : Order,
      V1.processOrder st now rand userId =
        (some o, { st with
                   orders := o :: st.orders,
                   cart := [] }) ∧
      o.total = toFixed2 ((st.cart.map Product.price).sum) ∧
      o.deliveryDate = o.date + 5 * 24 * 60 * 60 * 1000 ∧
      o.date = now ∧
      o.items = st.cart := by
  have hlen : (st.cart.length == 0) = false := by
    simp [List.length_eq_zero, h]
  refine ⟨{ id := randomOrderId rand, items := st.cart,
            total := toFixed2 (cartTotal st.cart), customer := ⟨userId, "Web User"⟩,
            status := "Pending", date := now,
            deliveryDate := now + 5 * 24 * 60 * 60 * 1000 }, ?_, ?_, rfl, rfl, rfl⟩
  · simp [V1.processOrder, hlen]
  · simp [cartTotal_eq_sum]

/-- C3 witness: the §8 test cart `[{title:"A",price:10},{title:"B",price:20}]`
submits to an order with total `30.00`, delivery five days out, prepended to
the (empty) history, leaving the cart empty. -/
theorem order_processor_submit_witness :
    ([prodA, prodB] ≠ ([] : List Product)) ∧
    (∃ o : Order,
      V1.processOrder ⟨[], [prodA, prodB], [], [], false⟩ 0 0 "user_web_demo" =
        (some o, { (⟨[], [prodA, prodB], [], [], false⟩ : V1.AppState) with
                   orders := o :: ([] : List Order),
                   cart := [] }) ∧
      o.total = toFixed2 (([prodA, prodB].map Product.price).sum) ∧
      o.deliveryDate = o.date + 5 * 24 * 60 * 60 * 1000 ∧
      o.date = 0 ∧
      o.items = [prodA, prodB]) ∧
    toFixed2 (([prodA, prodB].map Product.price).sum) = 30 :=
  ⟨by decide,
    order_processor_submit ⟨[], [prodA, prodB], [], [], false⟩ 0 0 "user_web_demo"
      (by decide),
    by norm_num [toFixed2, jsRound, prodA, prodB]⟩

/-- C4: on an empty cart `processOrder` returns `none` and leaves the whole
state (orders and cart included) unchanged; and when the place-order intent
fires on an empty cart, the resolver only appends the cart-is-empty reply —
no order is created and the cart stays empty. -/
theorem empty_cart_order_rejected :
    (∀ (st : V1.AppState) (now : Nat) (rand : ℚ) (userId : String),
      st.cart = [] → V1.processOrder st now rand userId = (none, st)) ∧
    (∀ (st : V1.AppState) (settings : AppSettings) (msg : String)
        (backend : Option V1.BackendResponse) (now : Nat) (rand : ℚ) (userId : String),
      st.cart = [] →
      V1.clearCond (toLowerStr msg) = false →
      V1.orderCond (toLowerStr msg) = true →
      V1.handleChat st settings msg backend now rand userId =
        { st with
          chatLog := st.chatLog ++
            [⟨Sender.user, msg, now⟩,
             ⟨Sender.bot, "Your cart is empty. Add some cool gear first!", now⟩] }) := by
  constructor
  · intro st now rand userId h
    simp [V1.processOrder, h]
  · intro st settings msg backend now rand userId h hc ho
    simp [V1.handleChat, V1.appendBot, h, hc, ho]

/-- C4 witness: `"checkout"` on an empty cart gets the cart-is-empty reply and
creates no order. -/
theorem empty_cart_order_rejected_witness :
    (([] : List Product) = []) ∧
    (V1.clearCond (toLowerStr "checkout") = false) ∧
    (V1.orderCond (toLowerStr "checkout") = true) ∧
    V1.handleChat ⟨FALLBACK_PRODUCTS, [], [], [], false⟩ INITIAL_SETTINGS "checkout"
        none 0 0 "user_web_demo" =
      ⟨FALLBACK_PRODUCTS, [], [],
        [⟨Sender.user, "checkout", 0⟩,
         ⟨Sender.bot, "Your cart is empty. Add some cool gear first!", 0⟩], false⟩ :=
  ⟨rfl, by decide, by decide, by
    rw [empty_cart_order_rejected.2 ⟨FALLBACK_PRODUCTS, [], [], [], false⟩ INITIAL_SETTINGS
      "checkout" none 0 0 "user_web_demo" rfl (by decide) (by decide)]
    rfl⟩

/-- C5: both cart totals the source computes — part_001's
`reduce((sum, i) => sum + i.price * i.quantity, 0)` and src/src/App.tsx's
`reduce((acc, item) => acc + item.price, 0)` over duplicate-entry carts — are
pure functions equal to the spec formula `sum(price_i * qty_i *
(1 - discount_i/100))`; no variant stores a discount, so every entry maps to
discount 0 (and every duplicate-entry cart item to quantity 1), and the total
of the empty cart is 0. -/
theorem cart_total_matches_spec :
    (∀ cart : List SS.CartItem,
      SS.orderTotal cart = specTotal (cart.map (fun i => ⟨i.price, i.quantity, 0⟩))) ∧
    SS.orderTotal [] = 0 ∧
    (∀ cart : List Product,
      cartTotal cart = specTotal (cart.map (fun p => ⟨p.price, 1, 0⟩))) ∧
    cartTotal [] = 0 := by
  refine ⟨?_, by simp [SS.orderTotal], ?_, by simp [cartTotal]⟩
  · intro cart
    rw [SS.orderTotal, foldl_add_map (fun i => i.price * (i.quantity : ℚ)) cart 0]
    simp [specTotal, List.map_map, Function.comp_def, zero_div, sub_zero, mul_one, zero_add]
  · intro cart
    rw [cartTotal, foldl_add_map Product.price cart 0]
    simp [specTotal, List.map_map, Function.comp_def, zero_div, sub_zero, mul_one, zero_add]

/-- C6: when no local rule matches (rules 1-3 fail, and none of the offline
add-to-cart, smart-handler or FAQ conditions hold either) and the chat POST
has failed (`backend = none`), the resolver appends the user message and the
fixed non-empty offline reply, and mutates nothing else: cart, catalog and
order history are exactly as before. -/
theorem offline_fallback_pure_reply (st : V1.AppState) (settings : AppSettings)
    (msg : String) (now : Nat) (rand : ℚ) (userId : String)
    (hc : V1.clearCond (toLowerStr msg) = false)
    (ho : V1.orderCond (toLowerStr msg) = false)
    (hs : V1.showCond (toLowerStr msg) = false)
    (ha : (containsStr (toLowerStr msg) "add to cart" ||
            containsStr (toLowerStr msg) "buy") = false)
    (hb : containsStr (toLowerStr msg) "best selling" = false)
    (hcs : (containsStr (toLowerStr msg) "contact" ||
             containsStr (toLowerStr msg) "support") = false)
    (hf : settings.faqs.find? (fun f => containsStr (toLowerStr msg) f.question) = none) :
    V1.handleChat st settings msg none now rand userId =
      { st with
        isBackendOffline := true,
        chatLog := st.chatLog ++
          [⟨Sender.user, msg, now⟩,
           ⟨Sender.bot, "I\x27m running in offline mode. I can help you browse products and manage your cart!", now⟩] } ∧
    (V1.handleChat st settings msg none now rand userId).cart = st.cart ∧
    (V1.handleChat st settings msg none now rand userId).products = st.products ∧
    (V1.handleChat st settings msg none now rand userId).orders = st.orders ∧
    ("I\x27m running in offline mode. I can help you browse products and manage your cart!" : String) ≠ "" := by
  have h : V1.handleChat st settings msg none now rand userId =
      { st with
        isBackendOffline := true,
        chatLog := st.chatLog ++
          [⟨Sender.user, msg, now⟩,
           ⟨Sender.bot, "I\x27m running in offline mode. I can help you browse products and manage your cart!", now⟩] } := by
    simp [V1.handleChat, V1.offlineFallback, V1.appendBot, hc, ho, hs, ha, hb, hcs, hf]
  exact ⟨h, by rw [h], by rw [h], by rw [h], by decide⟩

/-- C6 witness: `"hello there"` matches no local rule; with the backend down it
gets the generic offline reply and the state is otherwise untouched. -/
theorem offline_fallback_pure_reply_witness :
    (V1.clearCond (toLowerStr "hello there") = false) ∧
    (V1.orderCond (toLowerStr "hello there") = false) ∧
    (V1.showCond (toLowerStr "hello there") = false) ∧
    ((containsStr (toLowerStr "hello there") "add to cart" ||
       containsStr (toLowerStr "hello there") "buy") = false) ∧
    (containsStr (toLowerStr "hello there") "best selling" = false) ∧
    ((containsStr (toLowerStr "hello there") "contact" ||
       containsStr (toLowerStr "hello there") "support") = false) ∧
    (INITIAL_SETTINGS.faqs.find?
      (fun f => containsStr (toLowerStr "hello there") f.question) = none) ∧
    ((V1.handleChat ⟨FALLBACK_PRODUCTS, [prodA], [], [], false⟩ INITIAL_SETTINGS
        "hello there" none 0 0 "user_web_demo").cart = [prodA] ∧
     (V1.handleChat ⟨FALLBACK_PRODUCTS, [prodA], [], [], false⟩ INITIAL_SETTINGS
        "hello there" none 0 0 "user_web_demo").orders = []) :=
  ⟨by decide, by decide, by decide, by decide, by decide, by decide, by decide,
    ⟨(offline_fallback_pure_reply ⟨FALLBACK_PRODUCTS, [prodA], [], [], false⟩
        INITIAL_SETTINGS "hello there" 0 0 "user_web_demo" (by decide) (by decide)
        (by decide) (by decide) (by decide) (by decide) (by decide)).2.1,
     (offline_fallback_pure_reply ⟨FALLBACK_PRODUCTS, [prodA], [], [], false⟩
        INITIAL_SETTINGS "hello there" 0 0 "user_web_demo" (by decide) (by decide)
        (by decide) (by decide) (by decide) (by decide) (by decide)).2.2.2.1⟩⟩

/-- C7: while the registration gate is not passed (`registered = false`),
pressing send never produces a `send` action, in any widget state — so no chat
message ever reaches `onSendMessage` (the Offline Intent Resolver / the remote
chat API) before registration completes. -/
theorem unregistered_send_never_chats :
    ∀ ws : V5.WidgetState, V5.isSendMessage (V5.handleSend false ws).2 = false := by
  intro ⟨input, step, tempName⟩
  by_cases h1 : trimStr input = ""
  · cases step <;> simp [V5.handleSend, h1, V5.isSendMessage]
  · by_cases h2 : V5.mobileRegex (trimStr input) = true <;>
      cases step <;> simp [V5.handleSend, h1, h2, V5.isSendMessage]

/-- C8 counterexample: the claim "accepts its input exactly when the input
matches exactly 10 decimal digits" fails in the only-if direction, because the
source tests `input.trim()`: the raw input `" 9876543210"` (a leading space,
eleven characters) is accepted — registration fires with the trimmed number —
although it does not itself match ten decimal digits. -/
theorem phone_step_accepts_untrimmed :
    (V5.handleSend false ⟨" 9876543210", V5.RegStep.mobile, "Alice"⟩).2 =
      V5.SendAction.register "Alice" "9876543210" ∧
    V5.mobileRegex " 9876543210" = false := by
  constructor <;> decide

/-- C8 amended: the registration phone step accepts its input exactly when the
trimmed input matches exactly 10 decimal digits ("12345" rejected,
"9876543210" accepted), and a rejected phone input leaves the widget state —
the captured name and the step — untouched. -/
theorem phone_step_validation (input tempName : String) :
    (trimStr input ≠ "" →
      ((V5.handleSend false ⟨input, V5.RegStep.mobile, tempName⟩).2 =
          V5.SendAction.register tempName (trimStr input) ↔
        V5.mobileRegex (trimStr input) = true)) ∧
    (V5.mobileRegex (trimStr input) = false →
      V5.handleSend false ⟨input, V5.RegStep.mobile, tempName⟩ =
        (⟨input, V5.RegStep.mobile, tempName⟩, V5.SendAction.nothing)) ∧
    V5.mobileRegex "12345" = false ∧
    V5.mobileRegex "9876543210" = true := by
  refine ⟨?_, ?_, by decide, by decide⟩
  · intro hne
    by_cases h2 : V5.mobileRegex (trimStr input) = true <;>
      simp [V5.handleSend, hne, h2]
  · intro h2
    by_cases h1 : trimStr input = "" <;>
      simp [V5.handleSend, h1, h2]

/-- C8 witness: `"9876543210"` is accepted at the mobile step, `"12345"` is
rejected and leaves the captured name and the step unchanged. -/
theorem phone_step_validation_witness :
    (trimStr "9876543210" ≠ "") ∧
    ((V5.handleSend false ⟨"9876543210", V5.RegStep.mobile, "Bob"⟩).2 =
        V5.SendAction.register "Bob" (trimStr "9876543210") ↔
      V5.mobileRegex (trimStr "9876543210") = true) ∧
    (V5.mobileRegex (trimStr "12345") = false) ∧
    V5.handleSend false ⟨"12345", V5.RegStep.mobile, "Bob"⟩ =
      (⟨"12345", V5.RegStep.mobile, "Bob"⟩, V5.SendAction.nothing) :=
  ⟨by decide, (phone_step_validation "9876543210" "Bob").1 (by decide),
   by decide, (phone_step_validation "12345" "Bob").2.1 (by decide)⟩

/-- C9: the bold-markup parser splits on the `**...**` delimiter pattern and
maps every segment that both starts and ends with `**` to a bold span with the
markers sliced off and every other segment to plain text (it is a total
function, so it never throws); `"Hello **World**!"` yields
`["Hello ", bold "World", "!"]` and the unmatched `"**Oops"` stays one plain
segment. -/
theorem parse_bold_markup :
    parseMessage "Hello **World**!" =
      [Span.plain "Hello ", Span.bold "World", Span.plain "!"] ∧
    parseMessage "**Oops" = [Span.plain "**Oops"] ∧
    ∀ text : String,
      parseMessage text = (jsSplitBold text).map (fun part =>
        if startsWithStr part "**" && endsWithStr part "**" then
          Span.bold (sliceTwoTwo part)
        else Span.plain part) :=
  ⟨by decide, by decide, fun _ => rfl⟩

/-- C10: a successful registration appends exactly two messages in order — the
user echo `"<name> | <mobile>"` (the phone number enters the transcript) and a
bot welcome containing the name — and stores the captured name and mobile with
the registered flag set. -/
theorem register_appends_welcome (st : V5.AppState) (name mobile : String) (now : Nat) :
    (V5.handleRegister st name mobile now).chatLog =
      st.chatLog ++
        [⟨Sender.user, name ++ " | " ++ mobile, now⟩,
         ⟨Sender.bot, V5.welcomeText name, now⟩] ∧
    (V5.handleRegister st name mobile now).userReg = ⟨name, mobile, true⟩ ∧
    containsStr (V5.welcomeText name) name = true := by
  refine ⟨rfl, rfl, ?_⟩
  show infixAux name.data (("Welcome **" ++ name ++ "**! 🎉 How can I help you today? You can ask about products, track orders, or get recommendations!" : String)).data = true
  rw [String.data_append, String.data_append, List.append_assoc]
  exact infixAux_append_left _ _ _
    (infixAux_here name.data "**! 🎉 How can I help you today? You can ask about products, track orders, or get recommendations!".data)

end Nexa
